import Mathlib

/-!
Verification of the robot-project frame-transport and perception code.

The development shallowly embeds the Python sources:
  * `src/xeon_handshake.py` — handshake server (`validate_payload`, `handle_handshake`);
  * `src/pi-scripts/pi_handshake.py` — handshake client (`send_handshake`);
  * `src/xeon_stream.py` — frame ingestion loop (`receive_frame`, `main`);
  * `src/xeon_stream_depth.py` — stereo depth server (`compute_depth_map`,
    `detect_objects_and_depth`, `generate_mjpeg_stream`, `main`);
  * `src/server_stream_cal_1.py` — fiducial distance server (`detect_framing_square`).

Sockets are modelled as the list of byte chunks successive `recv` calls deliver;
machine integers are `Nat` with explicit bounds; external OpenCV collaborators
(JPEG decode, Canny, contour extraction, StereoBM, solvePnP) are abstracted as
function parameters or as data carried on the inputs, exactly at the call
boundary the Python code uses them.
-/

/-! ### Byte-level codec

`struct.pack('!II', ...)` / `struct.unpack('!II', ...)` and
`int.from_bytes(..., byteorder='big')` work on big-endian byte strings.
A byte is modelled as a `Nat` (values kept below 256 by construction). -/

/-- Big-endian encoding of `n` into exactly `k` bytes (least significant last),
as produced by `int.to_bytes(k, 'big')` / `struct.pack('!I', n)` for `k = 4`. -/
def toBytesBE : Nat → Nat → List Nat
  | 0, _ => []
  | k + 1, n => toBytesBE k (n / 256) ++ [n % 256]

/-- Big-endian decoding of a byte string, as `int.from_bytes(bs, 'big')` computes it. -/
def fromBytesBE (bs : List Nat) : Nat :=
  bs.foldl (fun acc b => acc * 256 + b) 0

theorem toBytesBE_length (k n : Nat) : (toBytesBE k n).length = k := by
  induction k generalizing n with
  | zero => rfl
  | succ k ih => simp [toBytesBE, ih]

theorem fromBytesBE_append_singleton (bs : List Nat) (b : Nat) :
    fromBytesBE (bs ++ [b]) = fromBytesBE bs * 256 + b := by
  simp [fromBytesBE, List.foldl_append]

theorem fromBytesBE_toBytesBE (k n : Nat) :
    fromBytesBE (toBytesBE k n) = n % 256 ^ k := by
  induction k generalizing n with
  | zero => simp [toBytesBE, fromBytesBE, Nat.mod_one]
  | succ k ih =>
    rw [toBytesBE, fromBytesBE_append_singleton, ih]
    have h : (256 : Nat) ^ (k + 1) = 256 * 256 ^ k := by ring
    have h2 : n / 256 % 256 ^ k = n % (256 * 256 ^ k) / 256 :=
      (Nat.mod_mul_right_div_self n 256 (256 ^ k)).symm
    have h3 : n % 256 = n % (256 * 256 ^ k) % 256 :=
      (Nat.mod_mod_of_dvd n ⟨256 ^ k, rfl⟩).symm
    rw [h, h2, h3, Nat.div_add_mod']

/-- Pi-side frame-header encoder.  Modelled from the spec: the capture-side
script that emits frame headers is not under `src/`; §4.1 of the spec fixes it
as `encodeHeader(cameraId, payloadLength) -> 8 bytes`, both fields unsigned
32-bit in network byte order (matching `struct.pack('!II', ...)`). -/
def encodeHeader (camId payloadLen : Nat) : List Nat :=
  toBytesBE 4 camId ++ toBytesBE 4 payloadLen

/-- Header decoder from `src/xeon_stream.py` line 27:
`cam_id, frame_size = struct.unpack('!II', header)` — the first four bytes are
the camera id and the last four the payload length, both big-endian. -/
def decodeHeader (hdr : List Nat) : Nat × Nat :=
  (fromBytesBE (hdr.take 4), fromBytesBE (hdr.drop 4))

theorem encodeHeader_length (camId payloadLen : Nat) :
    (encodeHeader camId payloadLen).length = 8 := by
  simp [encodeHeader, toBytesBE_length]

theorem decodeHeader_encodeHeader (camId payloadLen : Nat)
    (h1 : camId < 2 ^ 32) (h2 : payloadLen < 2 ^ 32) :
    decodeHeader (encodeHeader camId payloadLen) = (camId, payloadLen) := by
  have ht : (toBytesBE 4 camId ++ toBytesBE 4 payloadLen).take 4 = toBytesBE 4 camId := by
    rw [show 4 = (toBytesBE 4 camId).length from (toBytesBE_length 4 camId).symm]
    exact List.take_left _ _
  have hd : (toBytesBE 4 camId ++ toBytesBE 4 payloadLen).drop 4 = toBytesBE 4 payloadLen := by
    rw [show 4 = (toBytesBE 4 camId).length from (toBytesBE_length 4 camId).symm]
    exact List.drop_left _ _
  have e1 : fromBytesBE (toBytesBE 4 camId) = camId := by
    rw [fromBytesBE_toBytesBE]
    exact Nat.mod_eq_of_lt (by exact_mod_cast h1)
  have e2 : fromBytesBE (toBytesBE 4 payloadLen) = payloadLen := by
    rw [fromBytesBE_toBytesBE]
    exact Nat.mod_eq_of_lt (by exact_mod_cast h2)
  simp [decodeHeader, encodeHeader, ht, hd, e1, e2]

/-! ### Handshake payload validation (`src/xeon_handshake.py`)

A `CaptureConfig` is the JSON object the Pi sends
(`{resolution:[w,h], fps:number, cameras:[int,...], timestamp:number}`,
spec §3/§6); as a well-formed `CaptureConfig` it always carries the four
required keys, so the `required_keys` check of `validate_payload` (lines 21-24)
is identically true on this type and the remaining checks are lines 25-30. -/

structure CaptureConfig where
  resolution : List Int
  fps : ℚ
  cameras : List Int
  timestamp : ℚ
  deriving DecidableEq

/-- `CONFIG['EXPECTED_CAMERAS'] = [0, 1]` (`src/xeon_handshake.py` line 13):
a Python *list*, compared with `!=` (order- and multiplicity-sensitive). -/
def EXPECTED_CAMERAS : List Int := [0, 1]

/-- `validate_payload` (`src/xeon_handshake.py` lines 16-31): rejects when
`payload['cameras'] != CONFIG['EXPECTED_CAMERAS']` (Python list inequality) or
when the resolution is not a two-element list/tuple. -/
def validate_payload (p : CaptureConfig) : Bool :=
  decide (p.cameras = EXPECTED_CAMERAS) && decide (p.resolution.length = 2)

/-- The ACK reply `{'status': 'ACK', 'timestamp': payload['timestamp']}`
(`src/xeon_handshake.py` line 63). -/
structure HandshakeAck where
  status : String
  timestamp : ℚ
  deriving DecidableEq

/-- Message-level behaviour of `handle_handshake` (`src/xeon_handshake.py`
lines 59-66) once the payload has been received and parsed: if
`validate_payload` passes, the accepted config is kept and an ACK echoing
`payload['timestamp']` is sent; otherwise nothing is sent (`none`). -/
def handle_handshake (p : CaptureConfig) : Option (CaptureConfig × HandshakeAck) :=
  if validate_payload p then some (p, { status := "ACK", timestamp := p.timestamp })
  else none

/-- C1 counterexample: the payload `{resolution:[320,240], fps:15, cameras:[1,0],
timestamp:0}` carries exactly the expected *set* (indeed multiset) of camera
identifiers `{0,1}` and a two-element resolution, yet `handle_handshake` sends
no ACK, because line 25 compares Python lists and `[1,0] != [0,1]`.  This
refutes the claimed "accepts if and only if the payload carries exactly the
expected set of camera identifiers and a two-element resolution". -/
theorem validate_rejects_permuted_cameras :
    List.Perm ([1, 0] : List Int) EXPECTED_CAMERAS ∧
    ([320, 240] : List Int).length = 2 ∧
    handle_handshake { resolution := [320, 240], fps := 15,
                       cameras := [1, 0], timestamp := 0 } = none :=
  ⟨List.Perm.swap 0 1 [], rfl, by decide⟩

/-- C1 (amended): the handshake server replies with an ACK if and only if the
payload's camera list equals the expected camera list `[0, 1]` exactly (same
order and multiplicity, Python list equality) and the resolution has exactly
two elements; every other payload gets no ACK. -/
theorem handle_handshake_ack_iff (p : CaptureConfig) :
    (∃ r, handle_handshake p = some r) ↔
      p.cameras = EXPECTED_CAMERAS ∧ p.resolution.length = 2 := by
  unfold handle_handshake validate_payload
  by_cases h1 : p.cameras = EXPECTED_CAMERAS <;>
    by_cases h2 : p.resolution.length = 2 <;>
      simp [h1, h2]

/-- C4 counterexample: the payload `{resolution:[640,480], fps:30, cameras:[1,0],
timestamp:7}` matches the expected camera *set* and has a two-element
resolution, yet no ACK (hence no echoed timestamp) is produced: list order
matters to `validate_payload`.  This refutes "for every CaptureConfig payload
matching the expected camera set and a 2-element resolution, the handshake
server returns the config and sends an ACK". -/
theorem no_ack_for_set_equal_payload :
    List.Perm ([1, 0] : List Int) EXPECTED_CAMERAS ∧
    ([640, 480] : List Int).length = 2 ∧
    handle_handshake { resolution := [640, 480], fps := 30,
                       cameras := [1, 0], timestamp := 7 } = none :=
  ⟨List.Perm.swap 0 1 [], rfl, by decide⟩

/-- C4 (amended): for every payload whose camera list equals the expected list
`[0, 1]` exactly and whose resolution has two elements, `handle_handshake`
returns the config unchanged and sends an ACK whose echoed timestamp is
exactly the timestamp embedded in the received payload. -/
theorem handle_handshake_echoes_timestamp (p : CaptureConfig)
    (hc : p.cameras = EXPECTED_CAMERAS) (hr : p.resolution.length = 2) :
    handle_handshake p = some (p, { status := "ACK", timestamp := p.timestamp }) := by
  unfold handle_handshake validate_payload
  simp [hc, hr]

/-- Witness for the amended C4 at the concrete payload
`{resolution:[320,240], fps:15, cameras:[0,1], timestamp:123}`. -/
theorem handle_handshake_echoes_timestamp_witness :
    handle_handshake { resolution := [320, 240], fps := 15,
                       cameras := [0, 1], timestamp := 123 } =
      some ({ resolution := [320, 240], fps := 15, cameras := [0, 1], timestamp := 123 },
            { status := "ACK", timestamp := 123 }) :=
  handle_handshake_echoes_timestamp _ rfl rfl

/-- C8: frame-header round trip — decoding the 8-byte big-endian encoding of
any pair of unsigned 32-bit integers yields the pair back. -/
theorem header_roundtrip (camId payloadLen : Nat)
    (h1 : camId < 2 ^ 32) (h2 : payloadLen < 2 ^ 32) :
    decodeHeader (encodeHeader camId payloadLen) = (camId, payloadLen) :=
  decodeHeader_encodeHeader camId payloadLen h1 h2

/-- Witness for C8 at `cameraId = 7`, `payloadLength = 9000`. -/
theorem header_roundtrip_witness :
    decodeHeader (encodeHeader 7 9000) = (7, 9000) :=
  header_roundtrip 7 9000 (by decide) (by decide)

/-! ### Socket model and the frame ingestion loop (`src/xeon_stream.py`)

A TCP delivery is the list of byte chunks that successive `recv` calls will
return: each element is the data available at one read (a nonempty chunk for a
delivered segment; an exhausted list — or an empty chunk — models a closed
peer, for which `recv` returns zero bytes).  `recvOnce bufsize` models a
single `socket.recv(bufsize)`: it returns at most `bufsize` bytes of the
earliest available chunk, leaving the remainder (if the chunk was larger)
buffered for the next call. -/

def recvOnce (bufsize : Nat) (chunks : List (List Nat)) :
    List Nat × List (List Nat) :=
  match chunks with
  | [] => ([], [])
  | c :: rest =>
    if c.length ≤ bufsize then (c, rest)
    else (c.take bufsize, c.drop bufsize :: rest)

/-- The payload-accumulation loop of `receive_frame`
(`src/xeon_stream.py` lines 31-39): while fewer than `frame_size` bytes have
arrived, call `recv(min(BUFFER_SIZE, frame_size - bytes_received))` with
`BUFFER_SIZE = 4096`; an empty chunk ("connection closed during frame
receive") aborts with failure, otherwise chunks are concatenated.  The second
component is the remaining socket state. -/
def recv_payload (need : Nat) (chunks : List (List Nat)) :
    Option (List Nat) × List (List Nat) :=
  if hz : need = 0 then (some [], chunks)
  else
    let chunk := (recvOnce (min 4096 need) chunks).1
    let rest := (recvOnce (min 4096 need) chunks).2
    if hc : chunk = [] then (none, rest)
    else
      let res := recv_payload (need - chunk.length) rest
      match res.1 with
      | some more => (some (chunk ++ more), res.2)
      | none => (none, res.2)
termination_by need
decreasing_by
  exact Nat.sub_lt (Nat.pos_of_ne_zero hz) (List.length_pos.mpr hc)

/-- `receive_frame` (`src/xeon_stream.py` lines 19-53; the copies in
`src/xeon_stream_depth.py` and the single-camera servers are identical):
read 8 header bytes with a single `recv(8)` — any short read fails the frame —
then unpack `cam_id` and `frame_size` big-endian, accumulate exactly
`frame_size` payload bytes, and hand the payload to the external JPEG decoder
(`cv2.imdecode`, modelled by the `decode` parameter, `none` = decode failure).
All failure paths return `(None, None)`, modelled as `none`; the second
component is the remaining socket state. -/
def receive_frame {Image : Type} (decode : List Nat → Option Image)
    (chunks : List (List Nat)) : Option (Nat × Image) × List (List Nat) :=
  let header := (recvOnce 8 chunks).1
  let rest := (recvOnce 8 chunks).2
  if header.length = 8 then
    let cam_id := fromBytesBE (header.take 4)
    let frame_size := fromBytesBE (header.drop 4)
    let pr := recv_payload frame_size rest
    match pr.1 with
    | some frameData =>
      match decode frameData with
      | some frame => (some (cam_id, frame), pr.2)
      | none => (none, pr.2)
    | none => (none, pr.2)
  else (none, rest)

/-- Outcome of one iteration of the `while True` loop in `main`
(`src/xeon_stream.py` lines 77-98).  The loop body has exactly two paths for a
received result: `frame is None or cam_id is None` logs "Skipping invalid
frame" and `continue`s, otherwise the frame is processed (edge detection and
display).  The type has no "stopped" constructor because the code has no exit
path on a failed receive. -/
inductive IterOutcome (Image : Type) where
  | skipped : List (List Nat) → IterOutcome Image
  | processed : Nat → Image → List (List Nat) → IterOutcome Image
  deriving DecidableEq

/-- One iteration of the ingestion loop of `src/xeon_stream.py` `main`. -/
def stream_main_iter {Image : Type} (decode : List Nat → Option Image)
    (chunks : List (List Nat)) : IterOutcome Image :=
  let r := receive_frame decode chunks
  match r.1 with
  | none => IterOutcome.skipped r.2
  | some ci => IterOutcome.processed ci.1 ci.2 r.2

/-- `n` iterations of the ingestion loop, collecting the processed frames
(each passed through `apply_edge_detection`, modelled by `edge`). -/
def run_loop {Image : Type} (decode : List Nat → Option Image)
    (edge : Image → Image) : Nat → List (List Nat) → List (Nat × Image)
  | 0, _ => []
  | n + 1, chunks =>
    match stream_main_iter decode chunks with
    | IterOutcome.skipped rest => run_loop decode edge n rest
    | IterOutcome.processed cid img rest => (cid, edge img) :: run_loop decode edge n rest

theorem recvOnce_whole_chunk {n : Nat} (c : List Nat) (rest : List (List Nat))
    (h : c.length ≤ n) : recvOnce n (c :: rest) = (c, rest) := by
  simp [recvOnce, h]

/-- A payload delivered as one chunk of exactly the needed length is
accumulated whole (looping in 4096-byte reads when it is large). -/
theorem recv_payload_single_chunk (need : Nat) (payload : List Nat)
    (rest : List (List Nat)) (hne : payload ≠ []) (hlen : payload.length = need) :
    recv_payload need (payload :: rest) = (some payload, rest) := by
  induction need using Nat.strong_induction_on generalizing payload rest with
  | _ need ih =>
    have hpos : 0 < need := hlen ▸ List.length_pos.mpr hne
    rw [recv_payload.eq_def, dif_neg (by omega)]
    by_cases hsmall : need ≤ 4096
    · have hro : recvOnce (min 4096 need) (payload :: rest) = (payload, rest) :=
        recvOnce_whole_chunk payload rest (by omega)
      rw [hro]
      simp only
      rw [dif_neg hne, hlen, Nat.sub_self, recv_payload.eq_def, dif_pos rfl]
      simp
    · have hmin : min 4096 need = 4096 := by omega
      have hlong : ¬ payload.length ≤ 4096 := by omega
      have hro : recvOnce (min 4096 need) (payload :: rest) =
          (payload.take 4096, payload.drop 4096 :: rest) := by
        rw [hmin]; simp [recvOnce, hlong]
      rw [hro]
      simp only
      have htlen : (payload.take 4096).length = 4096 := by
        rw [List.length_take]; omega
      have htk : payload.take 4096 ≠ [] := by
        intro hcon
        rw [hcon] at htlen
        simp at htlen
      have hdlen : (payload.drop 4096).length = need - 4096 := by
        rw [List.length_drop]; omega
      have hdne : payload.drop 4096 ≠ [] := by
        intro hcon
        rw [hcon] at hdlen
        simp at hdlen
        omega
      rw [dif_neg htk, htlen,
        ih (need - 4096) (by omega) (payload.drop 4096) rest hdne hdlen]
      simp

/-- Receiving one well-formed frame message (8-byte header then a payload chunk
of exactly the declared length) consumes exactly that message and yields the
decode outcome of its payload. -/
theorem receive_frame_wellformed {Image : Type} (decode : List Nat → Option Image)
    (cid : Nat) (payload : List Nat) (rest : List (List Nat))
    (hcid : cid < 2 ^ 32) (hpl : payload.length < 2 ^ 32) (hne : payload ≠ []) :
    receive_frame decode (encodeHeader cid payload.length :: payload :: rest) =
      (match decode payload with
       | some img => (some (cid, img), rest)
       | none => (none, rest)) := by
  have hro : recvOnce 8 (encodeHeader cid payload.length :: payload :: rest) =
      (encodeHeader cid payload.length, payload :: rest) :=
    recvOnce_whole_chunk _ _ (le_of_eq (encodeHeader_length cid payload.length))
  have hdec := decodeHeader_encodeHeader cid payload.length hcid hpl
  unfold decodeHeader at hdec
  have h1 : fromBytesBE ((encodeHeader cid payload.length).take 4) = cid :=
    congrArg Prod.fst hdec
  have h2 : fromBytesBE ((encodeHeader cid payload.length).drop 4) = payload.length :=
    congrArg Prod.snd hdec
  unfold receive_frame
  rw [hro]
  simp only
  rw [if_pos (encodeHeader_length cid payload.length), h1, h2,
    recv_payload_single_chunk payload.length payload rest hne rfl]

/-- C3: after the peer disconnects (the socket is exhausted; every further
`recv` returns zero bytes), the ingestion loop of `src/xeon_stream.py` `main`
does **not** terminate: `receive_frame` returns the `(None, None)` failure, the
loop body logs "Skipping invalid frame" and `continue`s, leaving the socket
state unchanged — so every subsequent iteration repeats the same skipped
outcome and no iteration count ever processes a frame or exits.  This refutes
the claim that a short header read terminates the loop with a connection-lost
outcome and that the loop does not continue waiting for further frames. -/
theorem ingestion_loop_spins_after_disconnect {Image : Type}
    (decode : List Nat → Option Image) (edge : Image → Image) :
    stream_main_iter decode ([] : List (List Nat)) = IterOutcome.skipped [] ∧
    ∀ n, run_loop decode edge n [] = [] := by
  constructor
  · rfl
  · intro n
    induction n with
    | zero => rfl
    | succ n ih =>
      show run_loop decode edge (n + 1) [] = []
      rw [run_loop]
      have hiter : stream_main_iter decode ([] : List (List Nat)) =
          IterOutcome.skipped [] := rfl
      rw [hiter]
      exact ih

/-- C7: a payload that fails image decoding drops only that frame — the loop
is not terminated, and the next well-formed frame on the stream is still
received, decoded and processed (with edge detection applied). -/
theorem decode_failure_drops_single_frame {Image : Type}
    (decode : List Nat → Option Image) (edge : Image → Image)
    (cid1 cid2 : Nat) (bad good : List Nat) (img : Image)
    (hc1 : cid1 < 2 ^ 32) (hc2 : cid2 < 2 ^ 32)
    (hb : bad ≠ []) (hg : good ≠ [])
    (hbl : bad.length < 2 ^ 32) (hgl : good.length < 2 ^ 32)
    (hbad : decode bad = none) (hgood : decode good = some img) :
    run_loop decode edge 2
        [encodeHeader cid1 bad.length, bad, encodeHeader cid2 good.length, good] =
      [(cid2, edge img)] := by
  have h1 := receive_frame_wellformed decode cid1 bad
      [encodeHeader cid2 good.length, good] hc1 hbl hb
  rw [hbad] at h1
  have h2 := receive_frame_wellformed decode cid2 good [] hc2 hgl hg
  rw [hgood] at h2
  have hiter1 : stream_main_iter decode
      [encodeHeader cid1 bad.length, bad, encodeHeader cid2 good.length, good] =
      IterOutcome.skipped [encodeHeader cid2 good.length, good] := by
    unfold stream_main_iter
    rw [h1]
  have hiter2 : stream_main_iter decode [encodeHeader cid2 good.length, good] =
      IterOutcome.processed cid2 img ([] : List (List Nat)) := by
    unfold stream_main_iter
    rw [h2]
  show run_loop decode edge (1 + 1) _ = _
  rw [run_loop, hiter1]
  show run_loop decode edge (0 + 1) _ = _
  rw [run_loop, hiter2]
  rfl

/-- Witness for C7: a two-frame stream whose first payload `[5]` fails to
decode and whose second payload `[7]` decodes to `42`; the loop survives the
bad frame and processes the good one. -/
theorem decode_failure_drops_single_frame_witness :
    run_loop (fun l => if l = [7] then some 42 else none) (fun n => n + 1) 2
        [encodeHeader 0 1, [5], encodeHeader 1 1, [7]] = [(1, 43)] :=
  decode_failure_drops_single_frame (fun l => if l = [7] then some 42 else none)
    (fun n => n + 1) 0 1 [5] [7] 42 (by decide) (by decide) (by decide) (by decide)
    (by decide) (by decide) (by decide) (by decide)

/-! ### Handshake receive at the byte level (`src/xeon_handshake.py` lines 48-57)

The server reads the 4-byte length prefix with a single `recv(4)` and then the
JSON body with a **single** `recv(length)`; whatever that one call returns is
handed straight to `json.loads`.  There is no accumulation loop. -/

/-- Byte-level body receive of `handle_handshake`: returns the declared length
and the byte string passed to the JSON parser (`none` when the first read
returns no data and the function returns early). -/
def handshake_recv_payload (chunks : List (List Nat)) : Option (Nat × List Nat) :=
  let lengthBytes := (recvOnce 4 chunks).1
  let rest := (recvOnce 4 chunks).2
  if lengthBytes = [] then none
  else
    let len := fromBytesBE lengthBytes
    some (len, (recvOnce len rest).1)

/-- C9: the receiver does not always read exactly `L` body bytes before
parsing.  For the delivery in which a valid message with declared length 50
arrives as three TCP segments — the 4-byte prefix, then 10 body bytes, then
the remaining 40 body bytes — the single `recv(50)` returns only the first
10-byte segment, and that truncated body is handed to `json.loads`. -/
theorem handshake_parses_truncated_body :
    handshake_recv_payload
        [toBytesBE 4 50, List.replicate 10 32, List.replicate 40 32] =
      some (50, List.replicate 10 32) ∧
    (List.replicate 10 32 ++ List.replicate 40 32 : List Nat).length = 50 ∧
    (List.replicate 10 32 : List Nat).length ≠ 50 := by
  refine ⟨?_, by simp, by simp⟩
  decide

/-! ### The stereo depth server's module state (`src/xeon_stream_depth.py`)

Module-level slots (lines 29-30): `latest_frames = {0: None, 1: None}` and
`latest_depth = None`, read under `frame_lock` by `generate_mjpeg_stream`
(lines 110-118): channel `'depth'` reads `latest_depth`, a numeric channel
reads `latest_frames.get(cam_id)`. -/

structure DepthServerState (Image : Type) where
  latest_frames : Nat → Option Image
  latest_depth : Option Image

/-- The module-level initial state (`src/xeon_stream_depth.py` lines 29-30). -/
def depthInitState (Image : Type) : DepthServerState Image :=
  { latest_frames := fun _ => none, latest_depth := none }

/-- A logical channel of the web publishing layer. -/
inductive DepthChannel where
  | cam : Nat → DepthChannel
  | depth : DepthChannel
  deriving DecidableEq

/-- The read performed by `generate_mjpeg_stream` (`src/xeon_stream_depth.py`
lines 113-118) under `frame_lock`. -/
def read_depth_channel {Image : Type} (s : DepthServerState Image) :
    DepthChannel → Option Image
  | DepthChannel.depth => s.latest_depth
  | DepthChannel.cam i => s.latest_frames i

/-- The cache update `latest_frames[cam_id] = frame`
(`src/xeon_stream_depth.py` line 180): a dict item assignment, which mutates
the module-level dictionary in place. -/
def publish_frame {Image : Type} (s : DepthServerState Image) (i : Nat)
    (img : Image) : DepthServerState Image :=
  { s with latest_frames := Function.update s.latest_frames i (some img) }

/-- One iteration of the ingestion loop body of `main`
(`src/xeon_stream_depth.py` lines 173-187) after a frame for `cam_id` was
received.  `compute_depth_map` and `detect_objects_and_depth` are the
perception collaborators (parameters `cd` and `dt`).

Crucial Python scoping fact embedded here: `main` contains the assignment
`latest_depth = compute_depth_map(...)` (line 183) but no
`global latest_depth` declaration, so that assignment binds a *function-local*
name; the module-level `latest_depth` slot read by `generate_mjpeg_stream` is
never written.  The two `latest_frames[...] = detect_objects_and_depth(...)`
statements (lines 185-186) are dict item assignments and do update the module
state, using the old frames and the freshly computed local depth map. -/
def depth_main_iter {Image : Type} (cd : Image → Image → Image)
    (dt : Image → Image → Image) (s : DepthServerState Image)
    (cam_id : Nat) (frame : Image) : DepthServerState Image :=
  let s1 := publish_frame s cam_id frame
  match s1.latest_frames 0, s1.latest_frames 1 with
  | some f0, some f1 =>
    let localDepth := cd f0 f1
    { latest_frames :=
        Function.update (Function.update s1.latest_frames 0 (some (dt f0 localDepth)))
          1 (some (dt f1 localDepth)),
      latest_depth := s.latest_depth }
  | _, _ => s1

/-- The loop body never writes the module-level depth slot. -/
theorem depth_main_iter_preserves_depth {Image : Type} (cd dt : Image → Image → Image)
    (s : DepthServerState Image) (cam_id : Nat) (frame : Image) :
    (depth_main_iter cd dt s cam_id frame).latest_depth = s.latest_depth := by
  unfold depth_main_iter publish_frame
  cases h0 : Function.update s.latest_frames cam_id (some frame) 0 <;>
    cases h1 : Function.update s.latest_frames cam_id (some frame) 1 <;>
      simp [h0, h1]

/-- C10: the module-level `latest_depth` slot is never updated by the
ingestion loop — the assignment in `main` binds a function-local variable —
so after any sequence of received frames, reading the depth channel still
yields `none`. -/
theorem depth_channel_always_none {Image : Type} (cd dt : Image → Image → Image)
    (inputs : List (Nat × Image)) :
    read_depth_channel
        (inputs.foldl (fun s p => depth_main_iter cd dt s p.1 p.2)
          (depthInitState Image))
        DepthChannel.depth = none := by
  suffices h : ∀ s : DepthServerState Image,
      (inputs.foldl (fun s p => depth_main_iter cd dt s p.1 p.2) s).latest_depth =
        s.latest_depth by
    exact h (depthInitState Image)
  induction inputs with
  | nil => intro s; rfl
  | cons p ps ih =>
    intro s
    rw [List.foldl_cons, ih, depth_main_iter_preserves_depth]

/-- C2: at the concrete run in which the server receives a frame for camera 0
and then a frame for camera 1 — so both frames are present, the loop body
computes the depth map (the collaborator returns `99`) and executes
`latest_depth = compute_depth_map(...)` — the subsequent read of the depth
channel still returns `none`, not the published depth map `99`: the
assignment bound a local, and the cache's depth slot was never written.  This
refutes the claim that after a publish on the depth channel the cache's read
returns the published image. -/
theorem depth_publish_unreadable :
    read_depth_channel
        (depth_main_iter (fun _ _ => (99 : Nat)) (fun f _ => f)
          (depth_main_iter (fun _ _ => (99 : Nat)) (fun f _ => f)
            (depthInitState Nat) 0 10) 1 20)
        DepthChannel.depth = none ∧
    read_depth_channel
        (depth_main_iter (fun _ _ => (99 : Nat)) (fun f _ => f)
          (depth_main_iter (fun _ _ => (99 : Nat)) (fun f _ => f)
            (depthInitState Nat) 0 10) 1 20)
        DepthChannel.depth ≠ some 99 := by
  constructor
  · rfl
  · intro h
    simpa [depthInitState] using h.symm.trans
      (depth_main_iter_preserves_depth _ _ _ _ _ |>.trans
        (depth_main_iter_preserves_depth _ _ _ _ _))

/-! ### Stereo depth pipeline (`src/xeon_stream_depth.py` lines 63-108)

Grayscale conversion and the StereoBM block matcher are external cv2
collaborators; the repository's own contribution in `compute_depth_map` is the
final step, line 76: the matcher's disparity output is min-max normalized to
the display range 0–255 (`cv2.normalize(..., alpha=0, beta=255,
norm_type=cv2.NORM_MINMAX, dtype=cv2.CV_8U)`) and *that* normalized array is
returned as the "depth map".  We model the pipeline from the matcher's raw
disparity values (a list of rationals); `cv2.normalize` with NORM_MINMAX maps
`v ↦ (v - lo) * (beta - alpha) / (hi - lo) + alpha`, and when `hi = lo` OpenCV
uses scale 0 and shift `alpha - lo * 0 = 0`, producing all zeros.  (The CV_8U
saturating round is omitted; it is exact on the inputs used below.) -/

def normalize_minmax (xs : List ℚ) : List ℚ :=
  match xs with
  | [] => []
  | x :: rest =>
    let lo := rest.foldl min x
    let hi := rest.foldl max x
    if hi = lo then (x :: rest).map (fun _ => 0)
    else (x :: rest).map (fun v => (v - lo) * 255 / (hi - lo))

/-- `compute_depth_map` (`src/xeon_stream_depth.py` lines 63-77), as a
function of the raw disparity values the StereoBM collaborator returns:
the code's only arithmetic is the min-max normalization of line 76. -/
def compute_depth_map (rawDisparity : List ℚ) : List ℚ :=
  normalize_minmax rawDisparity

/-- The per-box depth estimation of `detect_objects_and_depth`
(`src/xeon_stream_depth.py` lines 98-103), applied to the depth-map values
inside one bounding box: keep strictly positive values, and if any remain and
their mean is positive, the reported depth is
`CONFIG['FOCAL_LENGTH'] * CONFIG['BASELINE'] / mean`. -/
def depth_for_box (focal baseline : ℚ) (box : List ℚ) : Option ℚ :=
  let valid := box.filter (fun v => 0 < v)
  if 0 < valid.length then
    let avg := valid.sum / (valid.length : ℚ)
    if 0 < avg then some (focal * baseline / avg) else none
  else none

/-- C5: for a synthetic stereo pair with a uniform horizontal shift of `d = 4`
pixels, the ideal block-matcher disparity map is constant (`64` in StereoBM's
1/16-pixel units; any constant value behaves identically).  `compute_depth_map`
min-max-normalizes that constant map to all zeros, so no strictly-positive
disparity pixels remain in any bounding box and **no depth is computed at
all** — instead of the claimed `focalLength * baseline / d`
(`500 * 0.1 / 4 = 12.5` metres with the CONFIG values).  The last conjunct
shows the depth formula of lines 101-103 does produce a depth on the *raw*
per-pixel disparities (`4` pixels each): it is the normalization step that
destroys the metric meaning. -/
theorem normalized_disparity_yields_no_depth :
    compute_depth_map [64, 64, 64] = [0, 0, 0] ∧
    depth_for_box 500 (1 / 10) (compute_depth_map [64, 64, 64]) = none ∧
    depth_for_box 500 (1 / 10) [4, 4, 4] = some (25 / 2) := by
  have h1 : compute_depth_map [64, 64, 64] = [0, 0, 0] := by
    norm_num [compute_depth_map, normalize_minmax]
  refine ⟨h1, ?_, ?_⟩
  · rw [h1]
    norm_num [depth_for_box, List.filter]
  · norm_num [depth_for_box, List.filter]

/-! ### Fiducial distance estimator (`src/server_stream_cal_1.py` lines 75-124)

`detect_framing_square` iterates over the external contours returned by
`cv2.findContours` on the colour mask.  A contour is abstracted as the data
the code extracts from it through its cv2 collaborators: its area
(`cv2.contourArea`), the vertex count of its polygon approximation
(`cv2.approxPolyDP` at 4% of the arc length), and the `cv2.solvePnP` result
(`none` when `ret` is false, otherwise the translation vector `tvec`). -/

structure Contour where
  area : ℚ
  approxLen : Nat
  pnp : Option (ℚ × ℚ × ℚ)
  deriving DecidableEq

/-- The contour loop of `detect_framing_square`
(`src/server_stream_cal_1.py` lines 93-121), returning the estimated distance.
Faithful to the source's control flow: the `break` on line 121 is indented
inside `if len(approx) == 4:` (line 100), so a contour that passes the area
test but fails the quadrilateral test does **not** stop the loop — the scan
continues with later contours.  When the first large quadrilateral is reached,
the loop breaks there: with `ret` true the distance is `tvec[2][0]` (the Z
component of the translation, line 116), with `ret` false the distance stays
`None`.  The edge map (line 123) and drawing calls are display-only and not
modelled. -/
def detect_framing_square (frameArea : ℚ) : List Contour → Option ℚ
  | [] => none
  | c :: rest =>
    if 1 / 10 * frameArea < c.area then
      if c.approxLen = 4 then
        match c.pnp with
        | some t => some t.2.2
        | none => none
      else detect_framing_square frameArea rest
    else detect_framing_square frameArea rest

/-- The behaviour the claim describes, written from the spec's words: exactly
one candidate is processed per frame — the first contour whose area exceeds
10% of the frame area — and a distance is reported only if *that* contour's
polygon approximation has exactly four vertices. -/
def detect_framing_square_claimed (frameArea : ℚ) (cs : List Contour) : Option ℚ :=
  match cs.find? (fun c => decide (1 / 10 * frameArea < c.area)) with
  | none => none
  | some c =>
    if c.approxLen = 4 then
      match c.pnp with
      | some t => some t.2.2
      | none => none
    else none

/-- C6 counterexample: on a frame of area 10 whose contour list is a large
pentagon (area 5, 5-vertex approximation) followed by a large quadrilateral
(area 5, 4 vertices, solved pose with translation `(0, 0, 3)`), the code
skips past the pentagon and reports distance `3` from the *second* large
contour, while the claimed behaviour — processing exactly one candidate, the
first exceeding the area threshold — would report no detection. -/
theorem fiducial_processes_later_candidates :
    detect_framing_square 10
        [{ area := 5, approxLen := 5, pnp := none },
         { area := 5, approxLen := 4, pnp := some (0, 0, 3) }] = some 3 ∧
    detect_framing_square_claimed 10
        [{ area := 5, approxLen := 5, pnp := none },
         { area := 5, approxLen := 4, pnp := some (0, 0, 3) }] = none := by
  constructor <;>
    norm_num [detect_framing_square, detect_framing_square_claimed, List.find?]

/-- C6 (amended): the detector scans the contour list in order and the first
contour passing **both** the area test (area > 10% of the frame) and the
four-vertex test decides the outcome: its solved pose's translation Z
component is the reported distance (no detection if the pose solve fails, and
the scan stops there either way); contours failing either test are skipped,
and when no contour passes both tests there is no detection. -/
theorem detect_framing_square_first_quad (fa : ℚ) (cs : List Contour) :
    detect_framing_square fa cs =
      (cs.find? (fun c => decide (1 / 10 * fa < c.area) && decide (c.approxLen = 4))).bind
        (fun c => c.pnp.map (fun t => t.2.2)) := by
  induction cs with
  | nil => rfl
  | cons c rest ih =>
    rw [detect_framing_square]
    by_cases h1 : 1 / 10 * fa < c.area
    · by_cases h2 : c.approxLen = 4
      · rw [if_pos h1, if_pos h2,
          List.find?_cons_of_pos _
            (by rw [Bool.and_eq_true]; exact ⟨decide_eq_true h1, decide_eq_true h2⟩)]
        cases hp : c.pnp <;> simp [hp]
      · rw [if_pos h1, if_neg h2, ih,
          List.find?_cons_of_neg _ (by rw [decide_eq_false h2, Bool.and_false]; simp)]
    · rw [if_neg h1, ih,
        List.find?_cons_of_neg _ (by rw [decide_eq_false h1, Bool.false_and]; simp)]
